import Mathlib

/-!
Verification development for the TikTok incremental post-collection and
deduplication engine (source file `2_obtener_post_tiktok.py`, with the
transcript-backfill selection from `3_transcript_tiktok_post.py`).

The collector's pagination loop, per-post processing, batched persistence
and dedup-index handling are embedded as executable Lean functions.
External collaborators are modelled as parameters:
  * the paginated fetcher is a finite list of responses consumed in call
    order (`none` = a failed fetch, as returned by `get_tiktok_videos_page`);
    once the list is exhausted further fetches fail;
  * the outcome of each CSV write attempt is an oracle `wOk : Nat → Bool`
    indexed by the running flush count (the source catches write errors
    inside `save_batch_to_csv_tiktok` and continues either way);
  * date formatting (`datetime.fromtimestamp(...).strftime(...)`) is an
    uninterpreted function `fmtDate` in the configuration.
Machine integers do not overflow here (Python ints), so timestamps are `Int`.
-/

/-- The `statistics` sub-object of a raw API video record.  Every counter is
read with `.get(key, 0)` in the source, hence `Option Int` fields with a
default of 0 applied at post-building time. -/
structure Stats where
  play_count : Option Int
  digg_count : Option Int
  comment_count : Option Int
  share_count : Option Int
  collect_count : Option Int
  download_count : Option Int
  repost_count : Option Int
  whatsapp_share_count : Option Int
  deriving DecidableEq

/-- `video.get('statistics', {})` yields an object with no counters set. -/
def emptyStats : Stats :=
  ⟨none, none, none, none, none, none, none, none⟩

/-- One raw video record of a fetched page.  `create_time` holds the string
form of the JSON value (`str(video.get('create_time', 'N/A'))` stringifies
whatever is present; `none` models an absent key, read back as `"N/A"`).
`share_url` stands for `share_info.share_url` when that nested field exists. -/
structure RawVideo where
  create_time : Option String
  aweme_id : Option String
  desc : Option String
  share_url : Option String
  url : Option String
  statistics : Option Stats
  deriving DecidableEq

/-- The unique id of a raw record: `str(video.get('create_time', 'N/A'))`. -/
def idOf (v : RawVideo) : String :=
  v.create_time.getD "N/A"

/-- Decimal value of a digit character, `none` for a non-digit. -/
def digitVal (c : Char) : Option Nat :=
  if 48 ≤ c.toNat ∧ c.toNat ≤ 57 then some (c.toNat - 48) else none

/-- Decimal reading of a character list, failing on any non-digit. -/
def digitsToNat : Nat → List Char → Option Nat
  | acc, [] => some acc
  | acc, c :: cs =>
    match digitVal c with
    | none => none
    | some d => digitsToNat (acc * 10 + d) cs

/-- Model of Python `int(s)` as used on `create_time_str`: an optional
sign followed by at least one decimal digit, else a `ValueError`
(`none`).  Python's tolerance for surrounding whitespace and digit-group
underscores, which API timestamp strings never contain, is not
modelled. -/
def parseInt (s : String) : Option Int :=
  match s.data with
  | [] => none
  | '-' :: cs =>
    match cs with
    | [] => none
    | _ => (digitsToNat 0 cs).map (fun n => -(n : Int))
  | '+' :: cs =>
    match cs with
    | [] => none
    | _ => (digitsToNat 0 cs).map (fun n => (n : Int))
  | cs => (digitsToNat 0 cs).map (fun n => (n : Int))

/-- One row written to the CSV store, mirroring `FIELDNAMES_TIKTOK`. -/
structure PostData where
  profile_handle : String
  video_id : String
  description : String
  create_time : String
  readable_date : String
  url : String
  play_count : Int
  digg_count : Int
  comment_count : Int
  share_count : Int
  collect_count : Int
  download_count : Int
  repost_count : Int
  whatsapp_share_count : Int
  transcript : String
  deriving DecidableEq

/-- A line of the CSV store: the header row or a data row. -/
inductive CsvLine where
  | header : CsvLine
  | row : PostData → CsvLine
  deriving DecidableEq

/-- Run configuration: the module constants `BATCH_SIZE` and
`DUPLICATE_THRESHOLD`, the computed `MONTH_LIMIT_TS`, and the date
formatter used for `readable_date`. -/
structure Config where
  batchSize : Nat
  dupThreshold : Nat
  monthLimit : Int
  fmtDate : Int → String

/-- The source constants: `BATCH_SIZE = 5`, `DUPLICATE_THRESHOLD = 4`. -/
def sourceBatchSize : Nat := 5

/-- `DUPLICATE_THRESHOLD = 4` from the source. -/
def sourceDupThreshold : Nat := 4

/-- One successful response of `get_tiktok_videos_page`: the post list
(`aweme_list`, an absent or null list is modelled as `[]`), the continuation
cursor and the `has_more` flag. -/
structure PageResult where
  aweme_list : List RawVideo
  max_cursor : Option String
  has_more : Option Int
  deriving DecidableEq

/-- Python falsiness of the cursor in `if not max_cursor`: absent or empty. -/
def cursorFalsy : Option String → Bool
  | none => true
  | some s => s.isEmpty

/-- Run-global collector state: the dedup set `existing_timestamps`, the
pending `new_data_batch`, the counter `total_new_posts_added`, the CSV store
(`none` = the file does not exist), and the number of flush attempts made
(instrumentation indexing the write-outcome oracle). -/
structure ColState where
  existing : Finset String
  batch : List PostData
  totalAdded : Nat
  file : Option (List CsvLine)
  flushCount : Nat
  deriving DecidableEq

/-- Page-local processing state: the global state plus
`duplicate_count_in_page`, `new_timestamps_to_add` and
`posts_added_in_current_profile`. -/
structure PageState where
  col : ColState
  dupCount : Nat
  staged : Finset String
  profileAdded : Nat
  deriving DecidableEq

/-- `write_header = not os.path.exists(file_name) or os.path.getsize(file_name) == 0`. -/
def writeHeaderCond (f : Option (List CsvLine)) : Bool :=
  f.isNone || (f.getD []).isEmpty

/-- The successful body of `save_batch_to_csv_tiktok`: open in append mode,
write the header when `writeHeaderCond` holds, then append the batch rows. -/
def flushFile (f : Option (List CsvLine)) (batch : List PostData) :
    Option (List CsvLine) :=
  some ((f.getD []) ++
    (if writeHeaderCond f then [CsvLine.header] else []) ++
    batch.map CsvLine.row)

/-- One call to `save_batch_to_csv_tiktok`: on a write error (oracle says
false) the exception is caught inside the function and the store is left
unchanged; either way control returns normally to the caller, which never
learns the outcome.  The batch itself is cleared by the caller, not here. -/
def saveBatch (wOk : Nat → Bool) (col : ColState) : ColState :=
  if wOk col.flushCount then
    { col with file := flushFile col.file col.batch,
               flushCount := col.flushCount + 1 }
  else
    { col with flushCount := col.flushCount + 1 }

/-- Building the `post_data` dict for an accepted post (`cts` is the id
string, `cti` its parsed integer value). -/
def buildPost (cfg : Config) (perfil : String) (v : RawVideo)
    (cts : String) (cti : Int) : PostData :=
  let stats := v.statistics.getD emptyStats
  { profile_handle := perfil
    video_id := v.aweme_id.getD "N/A"
    description := ((v.desc.getD "N/A").replace "\n" " ").replace "\r" ""
    create_time := cts
    readable_date := cfg.fmtDate cti
    url := v.share_url.getD (v.url.getD "N/A")
    play_count := (stats.play_count).getD 0
    digg_count := (stats.digg_count).getD 0
    comment_count := (stats.comment_count).getD 0
    share_count := (stats.share_count).getD 0
    collect_count := (stats.collect_count).getD 0
    download_count := (stats.download_count).getD 0
    repost_count := (stats.repost_count).getD 0
    whatsapp_share_count := (stats.whatsapp_share_count).getD 0
    transcript := "N/A" }

/-- The body of the per-post loop (`for video in posts`): parse the
timestamp (skip on failure), apply the month cutoff (skip, keeping
everything unchanged), count a duplicate when the id is already in the
dedup set, otherwise accept the post, and flush when the pending batch has
reached `BATCH_SIZE` (merging the staged ids into the dedup set and
clearing both, exactly as lines 229-233 of the source do). -/
def processVideo (cfg : Config) (wOk : Nat → Bool) (perfil : String)
    (ps : PageState) (v : RawVideo) : PageState :=
  let cts := idOf v
  match parseInt cts with
  | none => ps
  | some cti =>
    if cti < cfg.monthLimit then ps
    else if cts ∈ ps.col.existing then
      { ps with dupCount := ps.dupCount + 1 }
    else
      let pd := buildPost cfg perfil v cts cti
      let batch1 := ps.col.batch ++ [pd]
      let col1 := { ps.col with batch := batch1,
                                totalAdded := ps.col.totalAdded + 1 }
      let staged1 := insert cts ps.staged
      if cfg.batchSize ≤ batch1.length then
        let c := saveBatch wOk col1
        { col := { c with existing := c.existing ∪ staged1, batch := [] },
          dupCount := ps.dupCount,
          staged := ∅,
          profileAdded := ps.profileAdded + 1 }
      else
        { col := col1,
          dupCount := ps.dupCount,
          staged := staged1,
          profileAdded := ps.profileAdded + 1 }

/-- Result of the end-of-page bookkeeping. -/
structure PageOutcome where
  col : ColState
  profileAdded : Nat
  stop : Bool
  deriving DecidableEq

/-- Lines 236-255 of the source, run after the per-post loop of a page:
compute `should_break` from the page's duplicate count, flush the pending
batch when stopping or when the page carries no usable continuation
(falsy cursor or `has_more == 0`), break only on `should_break`, and
otherwise merge the staged ids and continue. -/
def pageEpilogue (cfg : Config) (wOk : Nat → Bool) (pr : PageResult)
    (ps : PageState) : PageOutcome :=
  let shouldBreak := cfg.dupThreshold ≤ ps.dupCount
  let col1 :=
    if (shouldBreak ∨ cursorFalsy pr.max_cursor = true ∨ pr.has_more = some 0)
        ∧ ps.col.batch ≠ [] then
      let c := saveBatch wOk ps.col
      { c with existing := c.existing ∪ ps.staged, batch := [] }
    else ps.col
  if shouldBreak then
    { col := col1, profileAdded := ps.profileAdded, stop := true }
  else
    { col := { col1 with existing := col1.existing ∪ ps.staged },
      profileAdded := ps.profileAdded, stop := false }

/-- Result of running the pagination loop for one profile: the final global
state, `posts_added_in_current_profile`, and how many fetch responses were
consumed (= pages requested from the environment). -/
structure RunOutcome where
  col : ColState
  profileAdded : Nat
  fetched : Nat
  deriving DecidableEq

/-- The `while True` pagination loop for one profile.  The environment is a
list of fetch responses consumed in call order; `none` is a failed fetch
(`if not videos_data_json: break`, no flush), an empty `aweme_list` breaks
without a flush (`if not posts: break`), and otherwise the page is
processed post by post and the epilogue decides whether to stop. -/
def runPages (cfg : Config) (wOk : Nat → Bool) (perfil : String) :
    List (Option PageResult) → ColState → Nat → RunOutcome
  | [], col, added => { col := col, profileAdded := added, fetched := 0 }
  | none :: _, col, added => { col := col, profileAdded := added, fetched := 1 }
  | some pr :: rest, col, added =>
    if pr.aweme_list = [] then
      { col := col, profileAdded := added, fetched := 1 }
    else
      let ps := List.foldl (processVideo cfg wOk perfil)
        { col := col, dupCount := 0, staged := ∅, profileAdded := added }
        pr.aweme_list
      let r := pageEpilogue cfg wOk pr ps
      if r.stop then
        { col := r.col, profileAdded := r.profileAdded, fetched := 1 }
      else
        let res := runPages cfg wOk perfil rest r.col r.profileAdded
        { col := res.col, profileAdded := res.profileAdded,
          fetched := res.fetched + 1 }

/-- How `load_existing_timestamps` sees the store: missing file, a file
`pd.read_csv` fails on, or a parsed `create_time` column (with `none` for
null cells, removed by `dropna`). -/
inductive StoreRead where
  | missing : StoreRead
  | unreadable : StoreRead
  | ok : List (Option String) → StoreRead

/-- `load_existing_timestamps`: a missing file is never opened, a read
error is caught and yields the empty set, otherwise the set of non-null
`create_time` strings. -/
def load_existing_timestamps : StoreRead → Finset String
  | StoreRead.missing => ∅
  | StoreRead.unreadable => ∅
  | StoreRead.ok vals => (vals.filterMap id).toFinset

/-- The collector state at the start of `main`, after the dedup set is
seeded from the store. -/
def initialState (store : StoreRead) (file0 : Option (List CsvLine)) :
    ColState :=
  { existing := load_existing_timestamps store, batch := [],
    totalAdded := 0, file := file0, flushCount := 0 }

/-- The profile loop of `main`: each profile is paired with its fetch
responses; the global state (dedup set, pending batch, counters, store)
carries over from one profile to the next, as in the source. -/
def runProfiles (cfg : Config) (wOk : Nat → Bool) :
    List (String × List (Option PageResult)) → ColState → ColState
  | [], col => col
  | (perfil, pages) :: rest, col =>
    runProfiles cfg wOk rest (runPages cfg wOk perfil pages col 0).col

/-- A full collection run: seed the dedup set from the store, then process
every profile. -/
def runMain (cfg : Config) (wOk : Nat → Bool)
    (profiles : List (String × List (Option PageResult)))
    (store : StoreRead) (file0 : Option (List CsvLine)) : ColState :=
  runProfiles cfg wOk profiles (initialState store file0)

/-- The posts carried by one fetch response (`[]` for a failed fetch). -/
def pagePosts : Option PageResult → List RawVideo
  | none => []
  | some pr => pr.aweme_list

/-- Number of header lines in the store. -/
def headerCount (f : Option (List CsvLine)) : Nat :=
  (f.getD []).countP (fun l => match l with
    | CsvLine.header => true
    | CsvLine.row _ => false)

/- Transcript-backfill stage, `3_transcript_tiktok_post.py`. -/

/-- `df['transcript'].fillna('N/A')`: a null cell becomes the sentinel. -/
def fillnaNA (t : Option String) : String :=
  t.getD "N/A"

/-- The backfill selection mask `df['transcript'] == 'N/A'`, applied after
`fillna`: exactly the rows still in the not-yet-attempted state. -/
def needsTranscript (t : String) : Bool :=
  t == "N/A"

/-- The normalized transcript column of the loaded store: a missing column
is created as all-`'N/A'` (`if 'transcript' not in df.columns`), and an
existing column has its null cells filled with `'N/A'`. -/
def transcriptColumn (rowCount : Nat) :
    Option (List (Option String)) → List String
  | none => List.replicate rowCount "N/A"
  | some ts => ts.map fillnaNA

/- Specification-side definition, used only to compare against the code:
the spec's duplicate density of a page relative to a dedup set `E`
("count of already-seen posts encountered within a single fetched page",
ignoring unparseable and too-old posts). -/

/-- Duplicate density of a page as the spec words it: the number of posts
whose id is already in the fixed set `E`, skipping posts with unparseable
timestamps and posts older than the cutoff. -/
def pageDupSpec (cfg : Config) (E : Finset String) : List RawVideo → Nat
  | [] => 0
  | v :: rest =>
    (match parseInt (idOf v) with
     | none => 0
     | some n =>
       if n < cfg.monthLimit then 0
       else if idOf v ∈ E then 1 else 0) + pageDupSpec cfg E rest

/- Concrete instances used by counterexamples and witnesses. -/

/-- A concrete configuration: the source constants `BATCH_SIZE = 5` and
`DUPLICATE_THRESHOLD = 4`, cutoff 0, trivial date formatter. -/
def cfg0 : Config :=
  { batchSize := sourceBatchSize, dupThreshold := sourceDupThreshold,
    monthLimit := 0, fmtDate := fun _ => "" }

/-- A raw video with the given id string and no optional payload. -/
def mkVideo (cts : String) : RawVideo :=
  { create_time := some cts, aweme_id := some "a", desc := some "d",
    share_url := none, url := some "u", statistics := none }

/-- An empty initial collector state over a missing store file. -/
def col0 : ColState :=
  { existing := ∅, batch := [], totalAdded := 0, file := none,
    flushCount := 0 }

/-- A page of six copies of one fresh id: with `BATCH_SIZE = 5` the fifth
acceptance flushes mid-page and merges the staged id, so the sixth copy is
counted as a duplicate. -/
def pageSixSame : List RawVideo :=
  List.replicate 6 (mkVideo "100")

/-- A page holding one fresh post, with a live cursor and `has_more = 1`. -/
def pageOneFresh : PageResult :=
  { aweme_list := [mkVideo "100"], max_cursor := some "c", has_more := some 1 }

/-- A page of five fresh distinct posts, with a live cursor. -/
def pageFiveFresh : PageResult :=
  { aweme_list := [mkVideo "101", mkVideo "102", mkVideo "103",
                   mkVideo "104", mkVideo "105"],
    max_cursor := some "c", has_more := some 1 }

/-- A page whose four posts are all already indexed below. -/
def pageFourDup : PageResult :=
  { aweme_list := [mkVideo "201", mkVideo "202", mkVideo "203",
                   mkVideo "204"],
    max_cursor := some "c", has_more := some 1 }

/-- A dedup set already holding the four ids of `pageFourDup`. -/
def colFourKnown : ColState :=
  { existing := {"201", "202", "203", "204"}, batch := [], totalAdded := 0,
    file := none, flushCount := 0 }

/-- A failed-fetch page: empty list, closed cursor. -/
def emptyPage : PageResult :=
  { aweme_list := [], max_cursor := none, has_more := some 0 }

/-- The configuration with cutoff 100 (for time-window scenarios). -/
def cfg100 : Config :=
  { cfg0 with monthLimit := 100 }

/-- An empty page-processing state over `col0`. -/
def psEmpty : PageState :=
  { col := col0, dupCount := 0, staged := ∅, profileAdded := 0 }

/-- An accepted post over id 100, as built by the collector. -/
def postW : PostData :=
  buildPost cfg0 "alice" (mkVideo "100") "100" 100

/-- A page state at the end of a duplicate-dense page: four duplicates
counted, one accepted post pending, its id staged. -/
def psW : PageState :=
  { col := { existing := ∅, batch := [postW], totalAdded := 1, file := none,
             flushCount := 0 },
    dupCount := 4, staged := {"100"}, profileAdded := 1 }

/- ------------------------------------------------------------------ -/
/- Theorems.                                                          -/
/- ------------------------------------------------------------------ -/

/-- A post whose timestamp string does not parse is skipped with the whole
state unchanged. -/
theorem processVideo_none (cfg : Config) (wOk : Nat → Bool) (perfil : String)
    (ps : PageState) (v : RawVideo) (hp : parseInt (idOf v) = none) :
    processVideo cfg wOk perfil ps v = ps := by
  simp only [processVideo, hp]

/-- A post strictly older than the cutoff is skipped with the whole state
unchanged. -/
theorem processVideo_old (cfg : Config) (wOk : Nat → Bool) (perfil : String)
    (ps : PageState) (v : RawVideo) (n : Int)
    (hp : parseInt (idOf v) = some n) (hlt : n < cfg.monthLimit) :
    processVideo cfg wOk perfil ps v = ps := by
  simp only [processVideo, hp]
  rw [if_pos hlt]

/-- A recent post whose id is already in the dedup set only increments the
page's duplicate count. -/
theorem processVideo_dup (cfg : Config) (wOk : Nat → Bool) (perfil : String)
    (ps : PageState) (v : RawVideo) (n : Int)
    (hp : parseInt (idOf v) = some n) (hlt : ¬ n < cfg.monthLimit)
    (hmem : idOf v ∈ ps.col.existing) :
    processVideo cfg wOk perfil ps v
      = { ps with dupCount := ps.dupCount + 1 } := by
  simp only [processVideo, hp]
  rw [if_neg hlt, if_pos hmem]

/-- A fresh recent post is accepted; when the grown batch stays below
`BATCH_SIZE` no flush happens: the post joins the pending batch, the
counters grow, and the id is staged. -/
theorem processVideo_accept (cfg : Config) (wOk : Nat → Bool)
    (perfil : String) (ps : PageState) (v : RawVideo) (n : Int)
    (hp : parseInt (idOf v) = some n) (hlt : ¬ n < cfg.monthLimit)
    (hmem : idOf v ∉ ps.col.existing)
    (hsz : ¬ cfg.batchSize ≤ ps.col.batch.length + 1) :
    processVideo cfg wOk perfil ps v
      = { col := { ps.col with
                    batch := ps.col.batch ++ [buildPost cfg perfil v (idOf v) n],
                    totalAdded := ps.col.totalAdded + 1 },
          dupCount := ps.dupCount,
          staged := insert (idOf v) ps.staged,
          profileAdded := ps.profileAdded + 1 } := by
  simp only [processVideo, hp]
  rw [if_neg hlt, if_neg hmem]
  simp only [List.length_append, List.length_singleton]
  rw [if_neg hsz]

/-- C5: a post whose parsed timestamp is strictly older than the cutoff is
silently skipped — the entire page state (acceptance, duplicate count,
pagination bookkeeping) is unchanged; a post at or past the cutoff passes
the time-window filter and proceeds to deduplication (it is counted as a
duplicate when already indexed, and accepted — growing the profile's
accepted counter — when not). -/
theorem c5_time_window_filter (cfg : Config) (wOk : Nat → Bool)
    (perfil : String) (ps : PageState) (v : RawVideo) (n : Int)
    (hp : parseInt (idOf v) = some n) :
    (n < cfg.monthLimit → processVideo cfg wOk perfil ps v = ps) ∧
    (¬ n < cfg.monthLimit →
      (idOf v ∈ ps.col.existing →
        processVideo cfg wOk perfil ps v
          = { ps with dupCount := ps.dupCount + 1 }) ∧
      (idOf v ∉ ps.col.existing →
        (processVideo cfg wOk perfil ps v).profileAdded
          = ps.profileAdded + 1)) := by
  refine ⟨fun hlt => processVideo_old cfg wOk perfil ps v n hp hlt,
    fun hlt => ⟨fun hmem => processVideo_dup cfg wOk perfil ps v n hp hlt hmem,
      fun hmem => ?_⟩⟩
  simp only [processVideo, hp]
  rw [if_neg hlt, if_neg hmem]
  split <;> rfl

/-- C5 witness: with cutoff 100, the post with timestamp 50 leaves the
state unchanged and the post with timestamp 150 is accepted. -/
theorem c5_witness :
    processVideo cfg100 (fun _ => true) "alice" psEmpty (mkVideo "50")
      = psEmpty ∧
    (processVideo cfg100 (fun _ => true) "alice" psEmpty
      (mkVideo "150")).profileAdded = 1 :=
  ⟨(c5_time_window_filter cfg100 (fun _ => true) "alice" psEmpty
      (mkVideo "50") 50 (by decide)).1 (by decide),
   ((c5_time_window_filter cfg100 (fun _ => true) "alice" psEmpty
      (mkVideo "150") 150 (by decide)).2 (by decide)).2 (by decide)⟩

/-- C8: a raw record whose `create_time` does not parse as an integer is
skipped — it is not accepted, it does not touch the page's duplicate
count, and the per-post loop simply continues with the remaining
records. -/
theorem c8_unparseable_skipped (cfg : Config) (wOk : Nat → Bool)
    (perfil : String) (ps : PageState) (v : RawVideo)
    (rest : List RawVideo) (hp : parseInt (idOf v) = none) :
    processVideo cfg wOk perfil ps v = ps ∧
    List.foldl (processVideo cfg wOk perfil) ps (v :: rest)
      = List.foldl (processVideo cfg wOk perfil) ps rest := by
  have h1 := processVideo_none cfg wOk perfil ps v hp
  exact ⟨h1, by rw [List.foldl_cons, h1]⟩

/-- C8 witness: a record with the non-numeric timestamp string `"abc"` is
skipped and the loop continues with the next record. -/
theorem c8_witness :
    processVideo cfg0 (fun _ => true) "alice" psEmpty (mkVideo "abc")
      = psEmpty ∧
    List.foldl (processVideo cfg0 (fun _ => true) "alice") psEmpty
        [mkVideo "abc", mkVideo "100"]
      = List.foldl (processVideo cfg0 (fun _ => true) "alice") psEmpty
        [mkVideo "100"] :=
  c8_unparseable_skipped cfg0 (fun _ => true) "alice" psEmpty
    (mkVideo "abc") [mkVideo "100"] (by decide)

/-- C10: every accepted post is built with transcript sentinel `"N/A"`;
the backfill pass (after turning missing/null cells into `"N/A"`) selects
a row exactly when its transcript cell was null or the sentinel; hence a
freshly collected post is always selected as not-yet-attempted, and a
store with no transcript column is treated as all-pending. -/
theorem c10_transcript_backfill :
    (∀ (cfg : Config) (perfil : String) (v : RawVideo) (cts : String)
        (cti : Int), (buildPost cfg perfil v cts cti).transcript = "N/A") ∧
    (∀ t : Option String,
      needsTranscript (fillnaNA t) = true ↔ (t = none ∨ t = some "N/A")) ∧
    (∀ (cfg : Config) (perfil : String) (v : RawVideo) (cts : String)
        (cti : Int),
      needsTranscript (buildPost cfg perfil v cts cti).transcript = true) ∧
    (∀ rowCount : Nat,
      transcriptColumn rowCount none = List.replicate rowCount "N/A") := by
  refine ⟨fun _ _ _ _ _ => rfl, fun t => ?_, fun _ _ _ _ _ => rfl,
    fun _ => rfl⟩
  cases t with
  | none => simp [needsTranscript, fillnaNA]
  | some s => simp [needsTranscript, fillnaNA, beq_iff_eq]

/-- Once the store holds at least one line it stays non-empty, so later
flushes append rows without ever adding another header line. -/
theorem headerCount_foldl_cons (batches : List (List PostData)) :
    ∀ (x : CsvLine) (l : List CsvLine),
      headerCount (List.foldl flushFile (some (x :: l)) batches)
        = headerCount (some (x :: l)) := by
  induction batches with
  | nil => intro x l; rfl
  | cons b bs ih =>
    intro x l
    rw [List.foldl_cons]
    have h1 : flushFile (some (x :: l)) b
        = some (x :: (l ++ b.map CsvLine.row)) := by
      simp [flushFile, writeHeaderCond]
    rw [h1, ih]
    simp [headerCount, List.countP_cons, List.countP_append,
      List.countP_map, Function.comp]

/-- C7: starting from a missing destination file, any non-empty sequence
of flushes writes the column header exactly once; and an individual flush
writes the header precisely when the destination does not exist or exists
with zero size. -/
theorem c7_header_exactly_once (batches : List (List PostData))
    (hne : batches ≠ []) :
    headerCount (List.foldl flushFile none batches) = 1 ∧
    ∀ f : Option (List CsvLine),
      writeHeaderCond f = true ↔ (f = none ∨ f = some []) := by
  constructor
  · cases batches with
    | nil => exact absurd rfl hne
    | cons b bs =>
      rw [List.foldl_cons]
      have h1 : flushFile none b
          = some (CsvLine.header :: b.map CsvLine.row) := rfl
      rw [h1, headerCount_foldl_cons]
      simp [headerCount, List.countP_cons, List.countP_map, Function.comp]
  · intro f
    match f with
    | none => simp [writeHeaderCond]
    | some [] => simp [writeHeaderCond]
    | some (x :: l) => simp [writeHeaderCond]

/-- C7 witness: two successive one-row flushes into a fresh store leave
exactly one header line. -/
theorem c7_witness :
    headerCount (List.foldl flushFile none [[postW], [postW]]) = 1 :=
  (c7_header_exactly_once [[postW], [postW]] (by decide)).1

/-- When the page's duplicate count has reached the threshold, the
end-of-page bookkeeping decides to stop. -/
theorem pageEpilogue_stop_true (cfg : Config) (wOk : Nat → Bool)
    (pr : PageResult) (ps : PageState)
    (hdup : cfg.dupThreshold ≤ ps.dupCount) :
    (pageEpilogue cfg wOk pr ps).stop = true := by
  simp only [pageEpilogue]
  rw [if_pos hdup]

/-- C4: when the duplicates counted across one whole page reach the
threshold, pagination for the profile stops right after that page: the
run consumes exactly one fetch response, its outcome is the end-of-page
bookkeeping applied to the state after every post of the page was
processed (the check runs once, after the per-post loop), and the result
does not depend on any later page — page N+1 is never requested. -/
theorem c4_duplicate_density_stop (cfg : Config) (wOk : Nat → Bool)
    (perfil : String) (pr : PageResult) (rest : List (Option PageResult))
    (col : ColState) (added : Nat) (hne : pr.aweme_list ≠ [])
    (hdup : cfg.dupThreshold ≤ (List.foldl (processVideo cfg wOk perfil)
        { col := col, dupCount := 0, staged := ∅, profileAdded := added }
        pr.aweme_list).dupCount) :
    runPages cfg wOk perfil (some pr :: rest) col added
      = { col := (pageEpilogue cfg wOk pr
            (List.foldl (processVideo cfg wOk perfil)
              { col := col, dupCount := 0, staged := ∅, profileAdded := added }
              pr.aweme_list)).col,
          profileAdded := (pageEpilogue cfg wOk pr
            (List.foldl (processVideo cfg wOk perfil)
              { col := col, dupCount := 0, staged := ∅, profileAdded := added }
              pr.aweme_list)).profileAdded,
          fetched := 1 } ∧
    runPages cfg wOk perfil (some pr :: rest) col added
      = runPages cfg wOk perfil [some pr] col added := by
  have hstop := pageEpilogue_stop_true cfg wOk pr
    (List.foldl (processVideo cfg wOk perfil)
      { col := col, dupCount := 0, staged := ∅, profileAdded := added }
      pr.aweme_list) hdup
  have key : ∀ r : List (Option PageResult),
      runPages cfg wOk perfil (some pr :: r) col added
        = { col := (pageEpilogue cfg wOk pr
              (List.foldl (processVideo cfg wOk perfil)
                { col := col, dupCount := 0, staged := ∅, profileAdded := added }
                pr.aweme_list)).col,
            profileAdded := (pageEpilogue cfg wOk pr
              (List.foldl (processVideo cfg wOk perfil)
                { col := col, dupCount := 0, staged := ∅, profileAdded := added }
                pr.aweme_list)).profileAdded,
            fetched := 1 } := by
    intro r
    simp only [runPages]
    rw [if_neg hne]
    rw [hstop]
    simp
  exact ⟨key rest, (key rest).trans (key []).symm⟩

/-- C4 witness: over a page whose four posts are all already indexed
(threshold 4), the run consumes one page and never requests the next. -/
theorem c4_witness :
    (runPages cfg0 (fun _ => true) "alice"
      [some pageFourDup, some pageOneFresh] colFourKnown 0).fetched = 1 := by
  rw [(c4_duplicate_density_stop cfg0 (fun _ => true) "alice" pageFourDup
    [some pageOneFresh] colFourKnown 0 (by decide) (by decide)).1]

/-- C2 counterexample: the claim that every stop flushes the pending batch
is false.  With one accepted post pending (batch size 5 not reached), a
stop caused by a failed fetch — and likewise one caused by an empty page —
leaves the loop with the accepted post still in the in-memory batch, no
flush ever attempted and the store never created, although the post was
already counted as added. -/
theorem c2_counterexample :
    ((runPages cfg0 (fun _ => true) "alice" [some pageOneFresh, none]
        col0 0).col.batch ≠ [] ∧
      (runPages cfg0 (fun _ => true) "alice" [some pageOneFresh, none]
        col0 0).col.flushCount = 0 ∧
      (runPages cfg0 (fun _ => true) "alice" [some pageOneFresh, none]
        col0 0).col.file = none ∧
      (runPages cfg0 (fun _ => true) "alice" [some pageOneFresh, none]
        col0 0).col.totalAdded = 1) ∧
    ((runPages cfg0 (fun _ => true) "alice"
        [some pageOneFresh, some emptyPage] col0 0).col.batch ≠ [] ∧
      (runPages cfg0 (fun _ => true) "alice"
        [some pageOneFresh, some emptyPage] col0 0).col.flushCount = 0) := by
  decide

/-- C2 (amended): a stop caused by the duplicate-density threshold does
flush a non-empty pending batch before the profile is finalized — a write
is attempted, the batch is cleared, the staged ids are merged into the
dedup set, and on write success the rows land in the store; by contrast a
fetcher failure, or an empty page, ends pagination with the whole state
untouched, so a pending batch is left unflushed at those stops. -/
theorem c2_amended_stop_flush (cfg : Config) (wOk : Nat → Bool)
    (perfil : String) (pr : PageResult) (ps : PageState)
    (rest : List (Option PageResult)) (col : ColState) (added : Nat) :
    (cfg.dupThreshold ≤ ps.dupCount → ps.col.batch ≠ [] →
      (pageEpilogue cfg wOk pr ps).stop = true ∧
      (pageEpilogue cfg wOk pr ps).col.batch = [] ∧
      (pageEpilogue cfg wOk pr ps).col.flushCount = ps.col.flushCount + 1 ∧
      ps.staged ⊆ (pageEpilogue cfg wOk pr ps).col.existing ∧
      (wOk ps.col.flushCount = true →
        (pageEpilogue cfg wOk pr ps).col.file
          = flushFile ps.col.file ps.col.batch)) ∧
    runPages cfg wOk perfil (none :: rest) col added
      = { col := col, profileAdded := added, fetched := 1 } ∧
    (pr.aweme_list = [] →
      runPages cfg wOk perfil (some pr :: rest) col added
        = { col := col, profileAdded := added, fetched := 1 }) := by
  refine ⟨fun hdup hb => ?_, rfl, fun h => ?_⟩
  · have hcond : (cfg.dupThreshold ≤ ps.dupCount
        ∨ cursorFalsy pr.max_cursor = true ∨ pr.has_more = some 0)
        ∧ ps.col.batch ≠ [] := ⟨Or.inl hdup, hb⟩
    have heq : pageEpilogue cfg wOk pr ps
        = { col := { saveBatch wOk ps.col with
                      existing := (saveBatch wOk ps.col).existing ∪ ps.staged,
                      batch := [] },
            profileAdded := ps.profileAdded, stop := true } := by
      simp only [pageEpilogue]
      rw [if_pos hcond, if_pos hdup]
    rw [heq]
    refine ⟨rfl, rfl, ?_, ?_, fun hw => ?_⟩
    · show (saveBatch wOk ps.col).flushCount = ps.col.flushCount + 1
      unfold saveBatch
      split <;> rfl
    · exact Finset.subset_union_right
    · show (saveBatch wOk ps.col).file = flushFile ps.col.file ps.col.batch
      unfold saveBatch
      rw [if_pos hw]
  · simp only [runPages]
    rw [if_pos h]

/-- C2 witness: at the end of a page with four counted duplicates and one
pending accepted post, the stop bookkeeping clears the batch and records
the flush attempt. -/
theorem c2_witness :
    (pageEpilogue cfg0 (fun _ => true) pageOneFresh psW).col.batch = [] ∧
    (pageEpilogue cfg0 (fun _ => true) pageOneFresh psW).col.flushCount
      = 1 :=
  ⟨((c2_amended_stop_flush cfg0 (fun _ => true) "alice" pageOneFresh psW
      [] col0 0).1 (by decide) (by decide)).2.1,
   ((c2_amended_stop_flush cfg0 (fun _ => true) "alice" pageOneFresh psW
      [] col0 0).1 (by decide) (by decide)).2.2.1⟩

/-- C3: evaluation of the code at the failing input of the bug.  Five
fresh posts fill a batch, the CSV write fails (oracle false), yet the
staged ids are merged into the dedup set, the posts stay counted as
added, and the store holds nothing — on a future run these posts can
never be re-collected, contradicting the specified error behaviour. -/
theorem c3_merge_despite_write_failure :
    "101" ∈ (runPages cfg0 (fun _ => false) "alice" [some pageFiveFresh]
        col0 0).col.existing ∧
    (runPages cfg0 (fun _ => false) "alice" [some pageFiveFresh]
        col0 0).col.totalAdded = 5 ∧
    (runPages cfg0 (fun _ => false) "alice" [some pageFiveFresh]
        col0 0).col.file = none ∧
    (runPages cfg0 (fun _ => false) "alice" [some pageFiveFresh]
        col0 0).col.flushCount = 1 := by
  decide

/-- C1 counterexample: six same-page copies of one id that is absent from
the dedup index at page start, with batch size 5.  The fifth acceptance
triggers a mid-page flush that merges the staged id, so the sixth copy is
counted as a duplicate: the page's duplicate count is 1 even though no
post of the page had its id in the index before the page began. -/
theorem c1_counterexample :
    (List.foldl (processVideo cfg0 (fun _ => true) "alice") psEmpty
      pageSixSame).dupCount = 1 ∧
    idOf (mkVideo "100") ∉ col0.existing := by
  decide

/-- While a page's processing never fills the batch, the dedup set is
untouched and the duplicate count is exactly the spec-side duplicate
density of the page relative to the page-start dedup set. -/
theorem foldl_noflush (cfg : Config) (wOk : Nat → Bool) (perfil : String)
    (posts : List RawVideo) :
    ∀ ps : PageState, ps.col.batch.length + posts.length < cfg.batchSize →
      (List.foldl (processVideo cfg wOk perfil) ps posts).dupCount
        = ps.dupCount + pageDupSpec cfg ps.col.existing posts ∧
      (List.foldl (processVideo cfg wOk perfil) ps posts).col.existing
        = ps.col.existing := by
  induction posts with
  | nil =>
    intro ps h
    simp [pageDupSpec]
  | cons v rest ih =>
    intro ps h
    rw [List.foldl_cons]
    cases hp : parseInt (idOf v) with
    | none =>
      rw [processVideo_none cfg wOk perfil ps v hp]
      obtain ⟨h1, h2⟩ := ih ps (by simp only [List.length_cons] at h; omega)
      refine ⟨?_, h2⟩
      rw [h1]
      simp [pageDupSpec, hp]
    | some n =>
      by_cases hlt : n < cfg.monthLimit
      · rw [processVideo_old cfg wOk perfil ps v n hp hlt]
        obtain ⟨h1, h2⟩ := ih ps (by simp only [List.length_cons] at h; omega)
        refine ⟨?_, h2⟩
        rw [h1]
        simp [pageDupSpec, hp, hlt]
      · by_cases hmem : idOf v ∈ ps.col.existing
        · rw [processVideo_dup cfg wOk perfil ps v n hp hlt hmem]
          obtain ⟨h1, h2⟩ := ih { ps with dupCount := ps.dupCount + 1 }
            (by show ps.col.batch.length + rest.length < cfg.batchSize
                simp only [List.length_cons] at h
                omega)
          refine ⟨?_, h2⟩
          rw [h1]
          simp only [pageDupSpec, hp, if_neg hlt, if_pos hmem]
          omega
        · have hsz : ¬ cfg.batchSize ≤ ps.col.batch.length + 1 := by
            simp only [List.length_cons] at h
            omega
          rw [processVideo_accept cfg wOk perfil ps v n hp hlt hmem hsz]
          obtain ⟨h1, h2⟩ := ih
            { col := { ps.col with
                        batch := ps.col.batch
                          ++ [buildPost cfg perfil v (idOf v) n],
                        totalAdded := ps.col.totalAdded + 1 },
              dupCount := ps.dupCount,
              staged := insert (idOf v) ps.staged,
              profileAdded := ps.profileAdded + 1 }
            (by show (ps.col.batch ++ [buildPost cfg perfil v (idOf v) n]).length
                  + rest.length < cfg.batchSize
                simp only [List.length_cons] at h
                simp only [List.length_append, List.length_singleton]
                omega)
          refine ⟨?_, h2⟩
          rw [h1]
          simp [pageDupSpec, hp, hlt, hmem]

/-- C1 (amended): when no intermediate flush occurs during a page (the
pending batch plus the page cannot reach the batch size), the per-page
duplicate count equals the number of posts whose id was in the dedup
index before the page began, and the index is unchanged throughout — ids
accepted earlier in the page never contribute.  When a mid-page flush
does occur it merges the staged ids into the index, so a later same-page
occurrence of an id accepted earlier in the page is counted as a
duplicate (see the counterexample). -/
theorem c1_amended_dup_count (cfg : Config) (wOk : Nat → Bool)
    (perfil : String) (col : ColState) (posts : List RawVideo) (a : Nat)
    (h : col.batch.length + posts.length < cfg.batchSize) :
    (List.foldl (processVideo cfg wOk perfil)
      { col := col, dupCount := 0, staged := ∅, profileAdded := a }
      posts).dupCount = pageDupSpec cfg col.existing posts := by
  have h1 := (foldl_noflush cfg wOk perfil posts
    { col := col, dupCount := 0, staged := ∅, profileAdded := a } h).1
  simpa using h1

/-- C1 witness: on a two-post page with one pre-indexed id and one fresh
id, the page's duplicate count is exactly 1. -/
theorem c1_witness :
    (List.foldl (processVideo cfg0 (fun _ => true) "alice")
      { col := colFourKnown, dupCount := 0, staged := ∅, profileAdded := 0 }
      [mkVideo "201", mkVideo "300"]).dupCount = 1 :=
  (c1_amended_dup_count cfg0 (fun _ => true) "alice" colFourKnown
    [mkVideo "201", mkVideo "300"] 0 (by decide)).trans (by decide)

/-- C9: two records with the same not-yet-indexed id inside one page, no
flush in between (batch empty at page start, batch size above 2): both
are accepted and staged — deduplication consults only the index, never
the staged ids or the pending batch — and flushing the resulting batch
writes both rows to the store. -/
theorem c9_same_id_twice_accepted (cfg : Config) (wOk : Nat → Bool)
    (perfil : String) (col : ColState) (a : Nat) (v : RawVideo) (n : Int)
    (hp : parseInt (idOf v) = some n) (hlt : ¬ n < cfg.monthLimit)
    (hmem : idOf v ∉ col.existing) (hb : col.batch = [])
    (hbs : 2 < cfg.batchSize) :
    (List.foldl (processVideo cfg wOk perfil)
      { col := col, dupCount := 0, staged := ∅, profileAdded := a }
      [v, v]).col.batch
      = [buildPost cfg perfil v (idOf v) n,
         buildPost cfg perfil v (idOf v) n] ∧
    (List.foldl (processVideo cfg wOk perfil)
      { col := col, dupCount := 0, staged := ∅, profileAdded := a }
      [v, v]).col.totalAdded = col.totalAdded + 2 ∧
    (List.foldl (processVideo cfg wOk perfil)
      { col := col, dupCount := 0, staged := ∅, profileAdded := a }
      [v, v]).dupCount = 0 ∧
    flushFile none (List.foldl (processVideo cfg wOk perfil)
      { col := col, dupCount := 0, staged := ∅, profileAdded := a }
      [v, v]).col.batch
      = some [CsvLine.header,
              CsvLine.row (buildPost cfg perfil v (idOf v) n),
              CsvLine.row (buildPost cfg perfil v (idOf v) n)] := by
  have hsz1 : ¬ cfg.batchSize
      ≤ (({ col := col, dupCount := 0, staged := ∅, profileAdded := a }
          : PageState)).col.batch.length + 1 := by
    simp [hb]
    omega
  have step1 := processVideo_accept cfg wOk perfil
    { col := col, dupCount := 0, staged := ∅, profileAdded := a }
    v n hp hlt hmem hsz1
  have hsz2 : ¬ cfg.batchSize
      ≤ (({ col := { col with
                      batch := col.batch ++ [buildPost cfg perfil v (idOf v) n],
                      totalAdded := col.totalAdded + 1 },
            dupCount := 0, staged := insert (idOf v) ∅, profileAdded := a + 1 }
          : PageState)).col.batch.length + 1 := by
    simp [hb]
    omega
  have step2 := processVideo_accept cfg wOk perfil
    { col := { col with
                batch := col.batch ++ [buildPost cfg perfil v (idOf v) n],
                totalAdded := col.totalAdded + 1 },
      dupCount := 0, staged := insert (idOf v) ∅, profileAdded := a + 1 }
    v n hp hlt hmem hsz2
  rw [List.foldl_cons, step1, List.foldl_cons, step2, List.foldl_nil]
  refine ⟨?_, rfl, rfl, ?_⟩
  · simp [hb]
  · simp [hb, flushFile, writeHeaderCond]

/-- C9 witness: a page repeating the fresh id 100 twice yields two pending
copies of the built post and no duplicate counted. -/
theorem c9_witness :
    (List.foldl (processVideo cfg0 (fun _ => true) "alice")
      { col := col0, dupCount := 0, staged := ∅, profileAdded := 0 }
      [mkVideo "100", mkVideo "100"]).col.batch = [postW, postW] ∧
    (List.foldl (processVideo cfg0 (fun _ => true) "alice")
      { col := col0, dupCount := 0, staged := ∅, profileAdded := 0 }
      [mkVideo "100", mkVideo "100"]).dupCount = 0 :=
  ⟨(c9_same_id_twice_accepted cfg0 (fun _ => true) "alice" col0 0
      (mkVideo "100") 100 (by decide) (by decide) (by decide) rfl
      (by decide)).1,
   (c9_same_id_twice_accepted cfg0 (fun _ => true) "alice" col0 0
      (mkVideo "100") 100 (by decide) (by decide) (by decide) rfl
      (by decide)).2.2.1⟩

/-- A post whose id is already in the dedup set can only bump the page's
duplicate count: nothing else in the state changes. -/
theorem processVideo_known (cfg : Config) (wOk : Nat → Bool)
    (perfil : String) (ps : PageState) (v : RawVideo)
    (hmem : idOf v ∈ ps.col.existing) :
    ∃ k, processVideo cfg wOk perfil ps v
      = { ps with dupCount := ps.dupCount + k } := by
  cases hp : parseInt (idOf v) with
  | none => exact ⟨0, processVideo_none cfg wOk perfil ps v hp⟩
  | some n =>
    by_cases hlt : n < cfg.monthLimit
    · exact ⟨0, processVideo_old cfg wOk perfil ps v n hp hlt⟩
    · exact ⟨1, processVideo_dup cfg wOk perfil ps v n hp hlt hmem⟩

/-- Processing a page all of whose ids are already in the dedup set
changes nothing but the duplicate count. -/
theorem foldl_known (cfg : Config) (wOk : Nat → Bool) (perfil : String)
    (posts : List RawVideo) :
    ∀ ps : PageState, (∀ v ∈ posts, idOf v ∈ ps.col.existing) →
      (List.foldl (processVideo cfg wOk perfil) ps posts).col = ps.col ∧
      (List.foldl (processVideo cfg wOk perfil) ps posts).staged
        = ps.staged ∧
      (List.foldl (processVideo cfg wOk perfil) ps posts).profileAdded
        = ps.profileAdded := by
  induction posts with
  | nil => exact fun ps _ => ⟨rfl, rfl, rfl⟩
  | cons v rest ih =>
    intro ps h
    obtain ⟨k1, h1⟩ := processVideo_known cfg wOk perfil ps v
      (h v (List.mem_cons_self v rest))
    rw [List.foldl_cons, h1]
    obtain ⟨a1, a2, a3⟩ := ih { ps with dupCount := ps.dupCount + k1 }
      (fun u hu => h u (List.mem_cons_of_mem v hu))
    exact ⟨a1, a2, a3⟩

/-- With an empty pending batch and no staged ids, the end-of-page
bookkeeping leaves the global state untouched whether it stops or not. -/
theorem pageEpilogue_inert (cfg : Config) (wOk : Nat → Bool)
    (pr : PageResult) (ps : PageState)
    (hb : ps.col.batch = []) (hs : ps.staged = ∅) :
    (pageEpilogue cfg wOk pr ps).col = ps.col ∧
    (pageEpilogue cfg wOk pr ps).profileAdded = ps.profileAdded := by
  have hcond : ¬ ((cfg.dupThreshold ≤ ps.dupCount
      ∨ cursorFalsy pr.max_cursor = true ∨ pr.has_more = some 0)
      ∧ ps.col.batch ≠ []) := fun hc => hc.2 hb
  simp only [pageEpilogue]
  rw [if_neg hcond]
  by_cases hsb : cfg.dupThreshold ≤ ps.dupCount
  · rw [if_pos hsb]
    exact ⟨rfl, rfl⟩
  · rw [if_neg hsb]
    refine ⟨?_, rfl⟩
    show { ps.col with existing := ps.col.existing ∪ ps.staged } = ps.col
    rw [hs, Finset.union_empty]

/-- Pagination over pages whose posts are all already indexed leaves the
global collector state exactly as it was. -/
theorem runPages_known (cfg : Config) (wOk : Nat → Bool) (perfil : String)
    (pages : List (Option PageResult)) :
    ∀ (col : ColState) (added : Nat), col.batch = [] →
      (∀ opr ∈ pages, ∀ v ∈ pagePosts opr, idOf v ∈ col.existing) →
      (runPages cfg wOk perfil pages col added).col = col := by
  induction pages with
  | nil => intro col added hb h; rfl
  | cons opr rest ih =>
    intro col added hb h
    cases opr with
    | none => rfl
    | some pr =>
      by_cases hne : pr.aweme_list = []
      · simp only [runPages]
        rw [if_pos hne]
      · obtain ⟨a1, a2, a3⟩ := foldl_known cfg wOk perfil pr.aweme_list
          { col := col, dupCount := 0, staged := ∅, profileAdded := added }
          (fun v hv => h (some pr) (List.mem_cons_self _ _) v hv)
        set F := List.foldl (processVideo cfg wOk perfil)
          { col := col, dupCount := 0, staged := ∅, profileAdded := added }
          pr.aweme_list with hF
        have hFb : F.col.batch = [] := by rw [a1]; exact hb
        have hFs : F.staged = ∅ := by rw [a2]
        obtain ⟨e1, e2⟩ := pageEpilogue_inert cfg wOk pr F hFb hFs
        simp only [runPages]
        rw [if_neg hne, ← hF]
        split
        · rw [e1, a1]
        · show (runPages cfg wOk perfil rest (pageEpilogue cfg wOk pr F).col
            (pageEpilogue cfg wOk pr F).profileAdded).col = col
          rw [e1, e2]
          exact (ih F.col F.profileAdded hFb
            (fun opr2 ho v hv => by
              rw [a1]
              exact h opr2 (List.mem_cons_of_mem _ ho) v hv)).trans a1

/-- The profile loop over profiles whose posts are all already indexed
leaves the global collector state exactly as it was. -/
theorem runProfiles_known (cfg : Config) (wOk : Nat → Bool)
    (profiles : List (String × List (Option PageResult))) :
    ∀ col : ColState, col.batch = [] →
      (∀ pp ∈ profiles, ∀ opr ∈ pp.2, ∀ v ∈ pagePosts opr,
        idOf v ∈ col.existing) →
      runProfiles cfg wOk profiles col = col := by
  induction profiles with
  | nil => intro col hb h; rfl
  | cons pp rest ih =>
    intro col hb h
    obtain ⟨perfil, pages⟩ := pp
    show runProfiles cfg wOk rest (runPages cfg wOk perfil pages col 0).col
      = col
    rw [runPages_known cfg wOk perfil pages col 0 hb
      (fun opr ho v hv =>
        h (perfil, pages) (List.mem_cons_self _ _) opr ho v hv)]
    exact ih col hb (fun q hq => h q (List.mem_cons_of_mem _ hq))

/-- C6: the dedup index is seeded from every `unique_id` of the persistent
store (a missing or unreadable store seeds the empty set rather than
failing); when the seeded index already contains the id of every post the
(unchanged) pages can produce — as after a completed previous run over the
same remote data — the run accepts zero additional posts. -/
theorem c6_idempotent_second_run (cfg : Config) (wOk : Nat → Bool)
    (profiles : List (String × List (Option PageResult)))
    (store : StoreRead) (file0 : Option (List CsvLine))
    (h : ∀ pp ∈ profiles, ∀ opr ∈ pp.2, ∀ v ∈ pagePosts opr,
      idOf v ∈ load_existing_timestamps store) :
    (runMain cfg wOk profiles store file0).totalAdded = 0 ∧
    load_existing_timestamps StoreRead.missing = ∅ ∧
    load_existing_timestamps StoreRead.unreadable = ∅ := by
  refine ⟨?_, rfl, rfl⟩
  unfold runMain
  rw [runProfiles_known cfg wOk profiles (initialState store file0) rfl h]
  rfl

/-- C6 witness: a second run over a store already holding id 100 and a
remote page producing only id 100 accepts nothing. -/
theorem c6_witness :
    (runMain cfg0 (fun _ => true) [("alice", [some pageOneFresh])]
      (StoreRead.ok [some "100"]) none).totalAdded = 0 :=
  (c6_idempotent_second_run cfg0 (fun _ => true)
    [("alice", [some pageOneFresh])] (StoreRead.ok [some "100"]) none
    (by decide)).1
